import Mathlib

/-!
Verification development for the banner-generation engine
(`engine/pipeline.py`, `engine/compositor.py`, `engine/typography.py`,
`engine/exporter.py`).  The Python code is shallowly embedded: images are
raster buffers with a pixel lookup function, Python `int(...)` over
non-negative reals becomes `Nat` floor division, Python `//` on possibly
negative quantities becomes `Int.fdiv`, and Python functions that may raise
are embedded with `Except Unit` results.
-/

/-- One RGBA pixel; channels are 0..255 byte values. -/
structure Pix where
  r : Nat
  g : Nat
  b : Nat
  a : Nat
deriving DecidableEq, Repr

/-- A raster image: fixed dimensions plus a pixel lookup function.
`pix x y` is the pixel in column `x`, row `y`. -/
structure Img where
  width : Nat
  height : Nat
  pix : Nat → Nat → Pix

/-- Default banner width (`config.BANNER_WIDTH = 1080`). -/
def BANNER_WIDTH : Nat := 1080

/-- Default banner height (`config.BANNER_HEIGHT = 1920`). -/
def BANNER_HEIGHT : Nat := 1920

/-- Configured maximum title length (`config.MAX_TITLE_LENGTH = 60`). -/
def MAX_TITLE_LENGTH : Nat := 60

/-- Embedding of `im.convert("RGB")`: drops the alpha channel
(every pixel becomes fully opaque). -/
def convertRGB (img : Img) : Img :=
  { width := img.width, height := img.height,
    pix := fun x y => { r := (img.pix x y).r, g := (img.pix x y).g,
                        b := (img.pix x y).b, a := 255 } }

/-- Embedding of PIL `Image.resize` to a target size: the output has exactly
the requested dimensions and every output pixel is sampled from the source
(`LANCZOS` resampling is modelled by point sampling; the claims under study
depend on the dimensions and on the fact that sampling never pads). -/
def resize (img : Img) (w h : Nat) : Img :=
  { width := w, height := h,
    pix := fun x y => img.pix (x * img.width / w) (y * img.height / h) }

/-- Embedding of a crop to the box with top-left corner `(x0, y0)`, width `w`
and height `h`. -/
def cropBox (img : Img) (x0 y0 w h : Nat) : Img :=
  { width := w, height := h, pix := fun x y => img.pix (x0 + x) (y0 + y) }

/-- Embedding of `ImageOps.fit(im, (w, h), LANCZOS)` (used by
`_open_and_resize` / `_open_bytes_and_resize`, engine/pipeline.py 120-132):
crop the largest centered sub-box of the source whose aspect ratio matches
the target, then resize that crop to exactly `(w, h)`.  Cover-fit: the
output is filled entirely from source pixels, never letterboxed. -/
def fit (img : Img) (w h : Nat) : Img :=
  let cw : Nat := if img.width * h ≥ img.height * w then img.height * w / h else img.width
  let ch : Nat := if img.width * h ≥ img.height * w then img.height else img.width * h / w
  resize (cropBox img ((img.width - cw) / 2) ((img.height - ch) / 2) cw ch) w h

/-- Embedding of `_open_and_resize` / `_open_bytes_and_resize`
(engine/pipeline.py 120-132) applied to an already-decoded image:
`convert("RGB")` then `ImageOps.fit` to the banner size. -/
def open_and_resize (w h : Nat) (img : Img) : Img :=
  fit (convertRGB img) w h

/-- Modelled from the spec: `_create_gradient_bg` is invoked by
`_load_background` (engine/pipeline.py line 118) but its definition is not
among the provided sources; only its caller is.  Spec §4.1 step 3: "for each
row `y` in `[0,H)`, compute channel values as a linear function of `y/H`
(e.g. R = 18 + 45·t, G = 12 + 28·t, B = 38 + 90·t) producing a dark
blue-purple sweep; no external dependency can fail this path."  `int` floor
arithmetic becomes `Nat` floor division. -/
def create_gradient_bg (w h : Nat) : Img :=
  { width := w, height := h,
    pix := fun _ y =>
      { r := 18 + 45 * y / h, g := 12 + 28 * y / h, b := 38 + 90 * y / h, a := 255 } }

/-- Outcome of the template branch of `_load_background`
(engine/pipeline.py 94-103).  `ok img` is the case where `template_path` is
given, the file exists, and it decodes to `img`; every other constructor is
one of the failure ways the source handles: path falsy, file missing,
path/stat raising, or open/decode raising (both caught by the local
`try`/`except`). -/
inductive TemplateSrc where
  | noPath
  | missing
  | statError
  | decodeError
  | ok (img : Img)

/-- Outcome of the anime-wallpaper branch of `_load_background`
(engine/pipeline.py 105-114).  `bytesOk img` is the case where the fetch
returns data that decodes to `img`; `bytesBad` is data whose decode raises
(caught by the same `try`/`except`); the rest are: module unavailable
(`anime_api is None`), fetch returning falsy data, and fetch raising. -/
inductive FetchSrc where
  | unavailable
  | apiNone
  | apiError
  | bytesBad
  | bytesOk (img : Img)

/-- True when the template branch yields no image (absent or invalid). -/
def templateFails : TemplateSrc → Bool
  | .ok _ => false
  | _ => true

/-- True when the wallpaper branch yields no image (fetch fails or returns
none, or the bytes do not decode). -/
def fetchFails : FetchSrc → Bool
  | .bytesOk _ => false
  | _ => true

/-- Embedding of `_load_background` (engine/pipeline.py 89-118): try the
template, then the wallpaper fetch, then the procedural gradient.  Every
failure of the first two attempts is caught locally in the source
(`try`/`except` around each attempt), so the embedding is a total function
into `Img`: no execution path raises to the caller. -/
def load_background (w h : Nat) (tpl : TemplateSrc) (fetch : FetchSrc) : Img :=
  match tpl with
  | .ok img => open_and_resize w h img
  | _ =>
    match fetch with
    | .bytesOk img => open_and_resize w h img
    | _ => create_gradient_bg w h

/-- C1: with the template absent or invalid and the wallpaper fetch failing
or returning none, `_load_background` returns the procedural gradient canvas
and never raises (its embedding is total into `Img`); the gradient source is
itself a total function producing a full `w × h` canvas. -/
theorem c1_background_fallback_never_raises
    (w h : Nat) (tpl : TemplateSrc) (fetch : FetchSrc)
    (h1 : templateFails tpl = true) (h2 : fetchFails fetch = true) :
    load_background w h tpl fetch = create_gradient_bg w h ∧
    (create_gradient_bg w h).width = w ∧ (create_gradient_bg w h).height = h := by
  refine ⟨?_, rfl, rfl⟩
  cases tpl with
  | ok img => simp [templateFails] at h1
  | noPath =>
    cases fetch with
    | bytesOk img => simp [fetchFails] at h2
    | unavailable => rfl
    | apiNone => rfl
    | apiError => rfl
    | bytesBad => rfl
  | missing =>
    cases fetch with
    | bytesOk img => simp [fetchFails] at h2
    | unavailable => rfl
    | apiNone => rfl
    | apiError => rfl
    | bytesBad => rfl
  | statError =>
    cases fetch with
    | bytesOk img => simp [fetchFails] at h2
    | unavailable => rfl
    | apiNone => rfl
    | apiError => rfl
    | bytesBad => rfl
  | decodeError =>
    cases fetch with
    | bytesOk img => simp [fetchFails] at h2
    | unavailable => rfl
    | apiNone => rfl
    | apiError => rfl
    | bytesBad => rfl

/-- Witness for C1 at a concrete input: template file missing, wallpaper API
returning no data, default 1080 × 1920 canvas. -/
theorem c1_background_fallback_never_raises_witness :
    load_background 1080 1920 TemplateSrc.missing FetchSrc.apiNone =
      create_gradient_bg 1080 1920 ∧
    (create_gradient_bg 1080 1920).width = 1080 ∧
    (create_gradient_bg 1080 1920).height = 1920 :=
  c1_background_fallback_never_raises 1080 1920 TemplateSrc.missing FetchSrc.apiNone
    rfl rfl

/-- C6: whatever the resolver's input (template image of any size, fetched
bytes of any size, or the procedural fallback), the returned canvas is
exactly `w × h`; and the cover-fit path never letterboxes: every pixel of a
fitted image is sampled from a source pixel (no padding is ever
introduced). -/
theorem c6_canvas_dims_cover_fit
    (w h : Nat) (tpl : TemplateSrc) (fetch : FetchSrc) :
    ((load_background w h tpl fetch).width = w ∧
     (load_background w h tpl fetch).height = h) ∧
    ∀ img x y, ∃ u v, (fit img w h).pix x y = img.pix u v := by
  constructor
  · cases tpl with
    | ok img => exact ⟨rfl, rfl⟩
    | noPath => cases fetch <;> exact ⟨rfl, rfl⟩
    | missing => cases fetch <;> exact ⟨rfl, rfl⟩
    | statError => cases fetch <;> exact ⟨rfl, rfl⟩
    | decodeError => cases fetch <;> exact ⟨rfl, rfl⟩
  · intro img x y
    exact ⟨_, _, rfl⟩

/-- The five fixed compositing stages of `LastPerson07_Compositor.composite`
(engine/compositor.py 21-41), each embedded as a function that may raise
(`Except Unit`), since the source wraps the whole chain in `try`/`except`.
The canvas type is abstract: the claims under study are about the
error-handling structure, not about pixel arithmetic. -/
structure Stages (α : Type) where
  contrast : α → Except Unit α
  color_grade : α → Except Unit α
  sharpness : α → Except Unit α
  gradient_overlay : α → Except Unit α
  vignette : α → Except Unit α

/-- The body of the `try` block of `composite`: `convert("RGB")` then the
five stages in their fixed order, propagating the first raised exception. -/
def compositeChain {α : Type} (s : Stages α) (convert : α → Except Unit α)
    (background : α) : Except Unit α :=
  convert background >>= s.contrast >>= s.color_grade >>= s.sharpness >>=
    s.gradient_overlay >>= s.vignette

/-- Embedding of `LastPerson07_Compositor.composite`
(engine/compositor.py 21-41): run the whole chain inside one `try`; on any
exception return the original `background` argument unchanged. -/
def composite {α : Type} (s : Stages α) (convert : α → Except Unit α)
    (background : α) : α :=
  match compositeChain s convert background with
  | .ok img => img
  | .error _ => background

/-- A concrete canvas type for exercising `composite`: the canvas is a log of
the stage tags applied to it, so stage effects are observable. -/
def tagStage (tag : String) : List String → Except Unit (List String) :=
  fun l => .ok (l ++ [tag])

/-- Stage set in which the first four stages succeed (each appending its tag)
and the vignette stage raises. -/
def vignetteFailing : Stages (List String) :=
  { contrast := tagStage "contrast"
    color_grade := tagStage "color_grade"
    sharpness := tagStage "sharpness"
    gradient_overlay := tagStage "gradient_overlay"
    vignette := fun _ => .error () }

/-- Counterexample to C2: when only the vignette stage throws, the claim says
the pipeline continues with the output of the prior four stages
(`["bg", "contrast", "color_grade", "sharpness", "gradient_overlay"]`); the
source instead returns the original input `["bg"]`, discarding the four
completed stages. -/
theorem c2_counterexample :
    composite vignetteFailing (fun l => Except.ok l) ["bg"] = ["bg"] ∧
    composite vignetteFailing (fun l => Except.ok l) ["bg"] ≠
      ["bg", "contrast", "color_grade", "sharpness", "gradient_overlay"] := by
  constructor
  · rfl
  · decide

/-- C2 (amended): `composite` wraps the whole five-stage chain in a single
`try`/`except`; if any stage (or the initial conversion) throws, the entire
chain's effects are discarded and the original input canvas is returned
unchanged, and when every stage succeeds the fully composited image is
returned; the call itself never raises (the embedding is total). -/
theorem c2_composite_failure_returns_original
    {α : Type} (s : Stages α) (convert : α → Except Unit α) (bg : α) :
    (∀ e : Unit, compositeChain s convert bg = .error e →
      composite s convert bg = bg) ∧
    (∀ r : α, compositeChain s convert bg = .ok r →
      composite s convert bg = r) := by
  constructor
  · intro e he
    simp [composite, he]
  · intro r hr
    simp [composite, hr]

/-- Witness for the amended C2 at concrete inputs: a failing vignette makes
`composite` return the original canvas, and an all-succeeding stage set
returns the fully composited log. -/
theorem c2_composite_failure_returns_original_witness :
    composite vignetteFailing (fun l => Except.ok l) ["bg"] = ["bg"] ∧
    composite
      { vignetteFailing with vignette := tagStage "vignette" }
      (fun l => Except.ok l) ["bg"] =
      ["bg", "contrast", "color_grade", "sharpness", "gradient_overlay",
       "vignette"] :=
  ⟨(c2_composite_failure_returns_original vignetteFailing
      (fun l => Except.ok l) ["bg"]).1 () rfl,
   (c2_composite_failure_returns_original
      { vignetteFailing with vignette := tagStage "vignette" }
      (fun l => Except.ok l) ["bg"]).2 _ rfl⟩

/-- A file entry as seen by the cleanup pass: an identifying name and a
modification time, for files already matching the glob pattern
`banner_*.jpg` (both `_cleanup_temp_files`, engine/pipeline.py 288-302, and
`LastPerson07_Exporter._cleanup`, engine/exporter.py 101-128, list exactly
those files). -/
structure FileEnt where
  name : Nat
  mtime : Nat
deriving DecidableEq, Repr

/-- Retention limit (`BANNER_KEEP_FILES` default / `Exporter.KEEP_FILES`),
200 in both sources. -/
def KEEP_FILES : Nat := 200

/-- Descending-by-mtime comparison used by
`files.sort(key=lambda p: p.stat().st_mtime, reverse=True)`. -/
def mtimeDesc (a b : FileEnt) : Bool := b.mtime ≤ a.mtime

/-- Embedding of the cleanup pass (engine/pipeline.py 288-302 and
engine/exporter.py 101-128, identical logic): glob the matching files; if
their count is at most the keep limit do nothing; otherwise sort by
modification time descending and delete everything after the first `keep`
entries.  Returns (files kept, files deleted). -/
def cleanupPass (keep : Nat) (files : List FileEnt) : List FileEnt × List FileEnt :=
  if files.length ≤ keep then (files, [])
  else
    ((files.mergeSort mtimeDesc).take keep, (files.mergeSort mtimeDesc).drop keep)

/-- C4: if at most `keep` matching files are present the cleanup pass
deletes nothing; if more are present, it keeps exactly `keep` files, every
deleted file's modification time is at most every kept file's, and kept and
deleted files together are exactly the original files (so exactly `keep`
matching files remain, the most recently modified ones). -/
theorem c4_retention (keep : Nat) (files : List FileEnt) :
    (files.length ≤ keep → cleanupPass keep files = (files, [])) ∧
    (keep < files.length →
      (cleanupPass keep files).1.length = keep ∧
      (∀ f ∈ (cleanupPass keep files).1, ∀ g ∈ (cleanupPass keep files).2,
        g.mtime ≤ f.mtime) ∧
      ((cleanupPass keep files).1 ++ (cleanupPass keep files).2).Perm files) := by
  constructor
  · intro hle
    simp [cleanupPass, hle]
  · intro hlt
    have hnle : ¬ files.length ≤ keep := Nat.not_le.mpr hlt
    have hsorted : List.Pairwise (fun a b => mtimeDesc a b = true)
        (files.mergeSort mtimeDesc) := by
      refine List.sorted_mergeSort ?_ ?_ files
      · intro a b c hab hbc
        simp only [mtimeDesc, decide_eq_true_eq] at *
        exact le_trans hbc hab
      · intro a b
        simp only [mtimeDesc, Bool.or_eq_true, decide_eq_true_eq]
        exact le_total b.mtime a.mtime
    have hperm : (files.mergeSort mtimeDesc).Perm files :=
      List.mergeSort_perm files mtimeDesc
    have hlen : (files.mergeSort mtimeDesc).length = files.length :=
      hperm.length_eq
    refine ⟨?_, ?_, ?_⟩
    · simp [cleanupPass, hnle, List.length_take, hlen, Nat.le_of_lt hlt]
    · intro f hf g hg
      simp only [cleanupPass, hnle, if_false] at hf hg
      have hsplit : List.Pairwise (fun a b => mtimeDesc a b = true)
          (List.take keep (files.mergeSort mtimeDesc) ++
            List.drop keep (files.mergeSort mtimeDesc)) := by
        rw [List.take_append_drop]
        exact hsorted
      have hcross := (List.pairwise_append.mp hsplit).2.2 f hf g hg
      simpa [mtimeDesc] using hcross
    · simp only [cleanupPass, hnle, if_false]
      rw [List.take_append_drop]
      exact hperm

/-- Witness for C4 at concrete inputs: three files with keep limit 3 are
untouched; with keep limit 2 the two most recently modified remain. -/
theorem c4_retention_witness :
    (cleanupPass 3 [⟨0, 5⟩, ⟨1, 9⟩, ⟨2, 7⟩] = ([⟨0, 5⟩, ⟨1, 9⟩, ⟨2, 7⟩], []) ∧
     (cleanupPass 2 [⟨0, 5⟩, ⟨1, 9⟩, ⟨2, 7⟩]).1.length = 2) := by
  refine ⟨(c4_retention 3 [⟨0, 5⟩, ⟨1, 9⟩, ⟨2, 7⟩]).1 (by decide),
          ((c4_retention 2 [⟨0, 5⟩, ⟨1, 9⟩, ⟨2, 7⟩]).2 (by decide)).1⟩

/-- Embedding of `LastPerson07_Typography.auto_font`
(engine/typography.py 48-64), returning the chosen font size.  The measured
bounding-box width of the (fixed) title at a candidate size is abstracted by
`measure`.  Source: `while size > 20:` build the font at `size`; if the
measured width fits within `max_width`, return it; otherwise `size -= 4`;
when the loop exits, return the font at the floor size 20. -/
def auto_font (measure : Nat → Nat) (size max_width : Nat) : Nat :=
  if 20 < size then
    if measure size ≤ max_width then size
    else auto_font measure (size - 4) max_width
  else 20
termination_by size
decreasing_by omega

/-- The 90%-of-canvas-width limit passed to the auto-fit search
(`int(width * 0.9)` with integer truncation). -/
def wLimit (w : Nat) : Nat := 9 * w / 10

/-- C5: the size chosen by the auto-fit search either renders the title
within 90% of the canvas width, or equals the floor size 20 (the loop
shrinks by the fixed step 4 and stops at the floor, accepting the
overflow); the chosen size also never goes below the floor. -/
theorem c5_auto_fit (measure : Nat → Nat) (size w : Nat) :
    (measure (auto_font measure size (wLimit w)) ≤ wLimit w ∨
      auto_font measure size (wLimit w) = 20) ∧
    20 ≤ auto_font measure size (wLimit w) := by
  induction size using Nat.strong_induction_on with
  | _ size ih =>
    by_cases h20 : 20 < size
    · by_cases hfit : measure size ≤ wLimit w
      · rw [auto_font, if_pos h20, if_pos hfit]
        exact ⟨Or.inl hfit, Nat.le_of_lt h20⟩
      · rw [auto_font, if_pos h20, if_neg hfit]
        exact ih (size - 4) (by omega)
    · rw [auto_font, if_neg h20]
      exact ⟨Or.inr rfl, le_refl 20⟩

/-- Drawing operations performed by `_render_text_and_watermark`
(engine/pipeline.py 194-267), in source order.  `blurPanel` is the
compositor's `blur_panel` operation (engine/compositor.py 105-131); the
constructor exists so that its absence from the renderer's trace is a
statable property. -/
inductive RenderOp where
  | blurPanel
  | glowText (pos : Int × Int) (text : List Char)
  | gaussianBlur (radius : Nat)
  | alphaCompositeGlow
  | strokeText (pos : Int × Int) (text : List Char)
  | fillText (pos : Int × Int) (text : List Char)
  | watermarkText (pos : Int × Int) (text : List Char)
  | autocontrast
deriving DecidableEq, Repr

/-- The title text carried by a glyph-drawing operation (glow, stroke or
fill); `none` for the other operations, the watermark included. -/
def RenderOp.titleText : RenderOp → Option (List Char)
  | .glowText _ t => some t
  | .strokeText _ t => some t
  | .fillText _ t => some t
  | _ => none

/-- Watermark string: `getattr(config, "WATERMARK_TEXT", "@LastPerson07")`;
`config.py` defines no `WATERMARK_TEXT`, so the default applies. -/
def WATERMARK_TEXT : List Char := "@LastPerson07".toList

/-- Rendering context: canvas size plus the text-measurement oracle.
`measure text size` is the `(width, height)` of `draw.textbbox((0, 0), text,
font)` for the font at point size `size`; it abstracts the font metrics,
which live outside the repository. -/
structure RenderCfg where
  width : Nat
  height : Nat
  measure : List Char → Nat → Nat × Nat

/-- Embedding of the auto-shrink loop of `_render_text_and_watermark`
(engine/pipeline.py 216-227): while the measured width exceeds the limit,
rebuild the font at `max(18, int(size * 0.9))` and re-measure.  The source
loop makes progress only while the size strictly decreases; once
`new_size == size` (the floor 18 still overflowing) it would rebuild and
re-measure the same font forever, so the embedding stops at that fixed
point, which is the limit of the source's behaviour. -/
def shrinkFontAux (cfg : RenderCfg) (wlim : Nat) (text : List Char) :
    Nat → Nat → Nat
  | 0, size => size
  | fuel + 1, size =>
    if wlim < (cfg.measure text size).1 then
      let ns := max 18 (size * 9 / 10)
      if ns < size then shrinkFontAux cfg wlim text fuel ns else size
    else size

/-- The shrink loop entered at `size`; since the size strictly decreases at
every productive iteration, `size` itself bounds the iteration count, so the
fuel never runs out before the loop's own exit condition. -/
def shrinkFont (cfg : RenderCfg) (wlim : Nat) (text : List Char) (size : Nat) : Nat :=
  shrinkFontAux cfg wlim text size size

/-- Embedding of `_calculate_text_position` (engine/pipeline.py 185-192):
center the measured text box, lifted by an eighth of the canvas height;
Python `//` floor division becomes `Int.fdiv`. -/
def calculate_text_position (cfg : RenderCfg) (text : List Char) (size : Nat) :
    Int × Int :=
  let tw := (cfg.measure text size).1
  let th := (cfg.measure text size).2
  (((cfg.width : Int) - tw).fdiv 2,
   ((cfg.height : Int) - th).fdiv 2 - (cfg.height / 8 : Nat))

/-- Offsets `(dx, dy)` of the stroke-drawing double loop
(engine/pipeline.py 243-247): all points of the `[-s, s] × [-s, s]` square
except the origin. -/
def strokeOffsets (s : Nat) : List (Int × Int) :=
  ((List.range (2 * s + 1)).flatMap (fun i =>
    (List.range (2 * s + 1)).map (fun j => ((i : Int) - s, (j : Int) - s)))).filter
    (fun d => !(d == ((0 : Int), (0 : Int))))

/-- Embedding of `_render_text_and_watermark` (engine/pipeline.py 194-267)
as the ordered trace of its drawing operations: shrink the main font until
the title fits (or the floor is reached), compute the centered position,
draw the glow text on the glow layer, blur it, alpha-composite it onto the
base, draw the stroke offsets, the white fill, the watermark at the fixed
top-left `(20, 20)`, and finish with autocontrast. -/
def render_text_and_watermark (cfg : RenderCfg) (title : List Char) :
    List RenderOp :=
  let text := title
  let fitted := shrinkFont cfg (wLimit cfg.width) text (max 36 (cfg.width / 18))
  let p := calculate_text_position cfg text fitted
  let sr := max 2 (cfg.width / 540)
  [RenderOp.glowText p text,
   RenderOp.gaussianBlur (max 8 (cfg.width / 150)),
   RenderOp.alphaCompositeGlow] ++
  (strokeOffsets sr).map (fun d => RenderOp.strokeText (p.1 + d.1, p.2 + d.2) text) ++
  [RenderOp.fillText p text,
   RenderOp.watermarkText (20, 20) WATERMARK_TEXT,
   RenderOp.autocontrast]

/-- Characters stripped by Python `str.strip()`: exactly the code points for
which `str.isspace()` is true — ASCII whitespace U+0009–U+000D and U+0020,
the file/group/record/unit separators U+001C–U+001F, NEL U+0085, NBSP
U+00A0, Ogham space U+1680, the Unicode space separators U+2000–U+200A,
line/paragraph separators U+2028/U+2029, and U+202F, U+205F, U+3000. -/
def pyWhitespace (c : Char) : Bool :=
  decide ((9 ≤ c.toNat ∧ c.toNat ≤ 13) ∨ (28 ≤ c.toNat ∧ c.toNat ≤ 31) ∨
    c.toNat = 32 ∨ c.toNat = 133 ∨ c.toNat = 160 ∨ c.toNat = 0x1680 ∨
    (0x2000 ≤ c.toNat ∧ c.toNat ≤ 0x200A) ∨ c.toNat = 0x2028 ∨
    c.toNat = 0x2029 ∨ c.toNat = 0x202F ∨ c.toNat = 0x205F ∨
    c.toNat = 0x3000)

/-- Embedding of Python `str.strip()`: drop whitespace from both ends. -/
def pyStrip (s : List Char) : List Char :=
  ((s.dropWhile pyWhitespace).reverse.dropWhile pyWhitespace).reverse

/-- Embedding of the title preprocessing of `LastPerson07_generate`
(engine/pipeline.py 59-61): `title = (title or "").strip()`, then truncate
to `MAX_TITLE_LENGTH` only when longer. -/
def processTitle (title : List Char) : List Char :=
  let t := pyStrip title
  if MAX_TITLE_LENGTH < t.length then t.take MAX_TITLE_LENGTH else t

/-- The part of `LastPerson07_generate` (engine/pipeline.py 49-85) that
determines how the title reaches the canvas: preprocess the title, then
render.  Background and font state are held fixed in `cfg`. -/
def generate_render (cfg : RenderCfg) (title : List Char) : List RenderOp :=
  render_text_and_watermark cfg (processTitle title)

/-- A concrete measurement oracle for exercising the renderer: text width
proportional to length times point size, height equal to the point size. -/
def exMeasure : List Char → Nat → Nat × Nat :=
  fun t s => (t.length * s, s)

/-- A concrete rendering context at the default 1080 × 1920 canvas. -/
def exCfg : RenderCfg :=
  { width := 1080, height := 1920, measure := exMeasure }

/-- Counterexample to C3: at the concrete title "Hello" the rendering step
performs no blur-panel operation at all, so the claimed backdrop-panel call
into the compositor does not happen before the glyphs are drawn. -/
theorem c3_counterexample :
    RenderOp.blurPanel ∉ render_text_and_watermark exCfg ("Hello".toList) := by
  decide

/-- C3 (amended): the typography rendering step never invokes the
compositor's blur-panel operation for any title; the glow, stroke and fill
glyphs are drawn directly on the canvas with no backdrop panel
(`blur_panel` exists in the compositor but has no caller in the
renderer). -/
theorem c3_render_never_calls_blur_panel (cfg : RenderCfg) (title : List Char) :
    RenderOp.blurPanel ∉ render_text_and_watermark cfg title := by
  simp [render_text_and_watermark]

/-- Counterexample to C7: two raw titles whose truncations to the maximum
length (60) agree, yet whose rendered outputs differ, because the source
strips whitespace before truncating: a leading space shifts a character
beyond the raw truncation boundary into the rendered text. -/
theorem c7_counterexample :
    List.take MAX_TITLE_LENGTH (' ' :: (List.replicate 59 'a' ++ ['X'])) =
      List.take MAX_TITLE_LENGTH (' ' :: (List.replicate 59 'a' ++ ['Y'])) ∧
    generate_render exCfg (' ' :: (List.replicate 59 'a' ++ ['X'])) ≠
      generate_render exCfg (' ' :: (List.replicate 59 'a' ++ ['Y'])) := by
  constructor
  · decide
  · decide

/-- C7 (amended): the pipeline trims the title and only then truncates to
the configured maximum length, so two titles whose trimmed forms agree after
truncation render identically (given identical background and font state);
characters beyond the trimmed-and-truncated prefix never influence the
output. -/
theorem c7_render_depends_only_on_trimmed_truncation
    (cfg : RenderCfg) (t1 t2 : List Char)
    (h : List.take MAX_TITLE_LENGTH (pyStrip t1) =
      List.take MAX_TITLE_LENGTH (pyStrip t2)) :
    generate_render cfg t1 = generate_render cfg t2 := by
  have key : ∀ t : List Char,
      processTitle t = List.take MAX_TITLE_LENGTH (pyStrip t) := by
    intro t
    unfold processTitle
    by_cases hl : MAX_TITLE_LENGTH < (pyStrip t).length
    · simp [hl]
    · simp [hl, List.take_of_length_le (Nat.le_of_not_lt hl)]
  unfold generate_render
  rw [key t1, key t2, h]

/-- Witness for the amended C7 at concrete inputs: leading and trailing
whitespace variants of the same trimmed title render identically. -/
theorem c7_render_depends_only_on_trimmed_truncation_witness :
    generate_render exCfg ("  hi".toList) = generate_render exCfg ("hi ".toList) :=
  c7_render_depends_only_on_trimmed_truncation exCfg ("  hi".toList)
    ("hi ".toList) (by decide)

/-- C9: for a title that is empty after trimming, the render still performs
every step — glow draw, Gaussian blur, glow compositing, stroke and fill
draws, autocontrast — every glyph-drawing operation carries the empty text
(nothing visible is drawn), and the watermark is still drawn at the fixed
top-left position (20, 20); the embedding is a total function, so the render
does not raise. -/
theorem c9_empty_title_renders_watermark (cfg : RenderCfg) (title : List Char)
    (h : pyStrip title = []) :
    (RenderOp.watermarkText (20, 20) WATERMARK_TEXT ∈ generate_render cfg title) ∧
    (∀ op ∈ generate_render cfg title, ∀ t, op.titleText = some t → t = []) ∧
    (∃ p, RenderOp.glowText p [] ∈ generate_render cfg title) ∧
    (∃ r, RenderOp.gaussianBlur r ∈ generate_render cfg title) ∧
    (RenderOp.alphaCompositeGlow ∈ generate_render cfg title) ∧
    (∃ p, RenderOp.fillText p [] ∈ generate_render cfg title) ∧
    (RenderOp.autocontrast ∈ generate_render cfg title) := by
  have hp : processTitle title = [] := by
    simp [processTitle, h]
  unfold generate_render
  rw [hp]
  refine ⟨?_, ?_,
    ⟨calculate_text_position cfg []
      (shrinkFont cfg (wLimit cfg.width) [] (max 36 (cfg.width / 18))), ?_⟩,
    ⟨max 8 (cfg.width / 150), ?_⟩, ?_,
    ⟨calculate_text_position cfg []
      (shrinkFont cfg (wLimit cfg.width) [] (max 36 (cfg.width / 18))), ?_⟩, ?_⟩
  · simp [render_text_and_watermark]
  · simp only [render_text_and_watermark, List.forall_mem_append,
      List.forall_mem_cons, List.forall_mem_map, List.forall_mem_singleton]
    simp [RenderOp.titleText]
  · simp [render_text_and_watermark]
  · simp [render_text_and_watermark]
  · simp [render_text_and_watermark]
  · simp [render_text_and_watermark]
  · simp [render_text_and_watermark]

/-- PIL alpha compositing of a source pixel `src` over an opaque destination
pixel `dst` (the compositor always converts the canvas to RGBA from RGB
first, so the destination is opaque): each channel blends by `src`'s alpha,
and the result is opaque. -/
def alphaCompositePix (dst src : Pix) : Pix :=
  { r := (src.a * src.r + (255 - src.a) * dst.r) / 255,
    g := (src.a * src.g + (255 - src.a) * dst.g) / 255,
    b := (src.a * src.b + (255 - src.a) * dst.b) / 255,
    a := 255 }

/-- Row value of the gradient mask built by `_gradient_overlay`
(engine/compositor.py 85-88): `int(255 * (y / height) ** 2)`, with `int`
truncation of the non-negative real value rendered as `Nat` floor
division. -/
def gradientMaskValue (h y : Nat) : Nat := 255 * y ^ 2 / h ^ 2

/-- Embedding of `LastPerson07_Compositor._gradient_overlay`
(engine/compositor.py 74-101): build the 1 × H single-channel gradient
column, widen it to W × H (`gradient.resize((width, height))`, which for a
one-pixel-wide column replicates the column across every row; the `merge`d
`alpha_mask` in the source is unused), composite a black layer of alpha 180
through the mask onto a transparent layer, and alpha-composite that layer
over the RGBA-converted canvas, converting back to RGB (every output pixel
opaque). -/
def gradient_overlay (img : Img) : Img :=
  let mask : Nat → Nat → Nat := fun _ y => gradientMaskValue img.height y
  let layer : Nat → Nat → Pix := fun x y =>
    { r := 0, g := 0, b := 0, a := 180 * mask x y / 255 }
  { width := img.width, height := img.height,
    pix := fun x y => alphaCompositePix ((convertRGB img).pix x y) (layer x y) }

/-- C8: the gradient-overlay stage uses a single-channel mask whose value at
row `y` is exactly `⌊255·(y/H)²⌋`, composites the alpha-180 black layer over
the canvas through that mask, and the mask is monotone in `y`, so the
darkening is quadratic and concentrated at the bottom. -/
theorem c8_gradient_overlay_mask (img : Img) (x y : Nat) :
    ((gradient_overlay img).pix x y =
      alphaCompositePix ((convertRGB img).pix x y)
        { r := 0, g := 0, b := 0,
          a := 180 * gradientMaskValue img.height y / 255 }) ∧
    (gradientMaskValue img.height y =
      ⌊(255 : ℚ) * ((y : ℚ) / (img.height : ℚ)) ^ 2⌋₊) ∧
    (∀ y₁ y₂ : Nat, y₁ ≤ y₂ →
      gradientMaskValue img.height y₁ ≤ gradientMaskValue img.height y₂) := by
  refine ⟨rfl, ?_, ?_⟩
  · rw [show (255 : ℚ) * ((y : ℚ) / (img.height : ℚ)) ^ 2 =
        ((255 * y ^ 2 : ℕ) : ℚ) / ((img.height ^ 2 : ℕ) : ℚ) by push_cast; ring]
    rw [Nat.floor_div_nat, Nat.floor_natCast]
    rfl
  · intro y₁ y₂ h12
    exact Nat.div_le_div_right
      (Nat.mul_le_mul_left 255 (Nat.pow_le_pow_left h12 2))

/-- A PIL rectangle box `(left, upper, right, lower)` as used by
`crop`/`paste`/`ImageDraw.rectangle`. -/
structure Box where
  x0 : Nat
  y0 : Nat
  x1 : Nat
  y1 : Nat
deriving DecidableEq, Repr

/-- Embedding of `img.crop(box)`: the region `[x0, x1) × [y0, y1)`. -/
def crop (img : Img) (b : Box) : Img :=
  { width := b.x1 - b.x0, height := b.y1 - b.y0,
    pix := fun x y => img.pix (b.x0 + x) (b.y0 + y) }

/-- Embedding of `img.paste(region, box)`: pixels inside `[x0, x1) × [y0, y1)`
come from the pasted region, every other pixel is left untouched. -/
def pasteAt (img : Img) (region : Img) (b : Box) : Img :=
  { width := img.width, height := img.height,
    pix := fun x y =>
      if b.x0 ≤ x ∧ x < b.x1 ∧ b.y0 ≤ y ∧ y < b.y1
      then region.pix (x - b.x0) (y - b.y0)
      else img.pix x y }

/-- Embedding of `ImageDraw.Draw(img, "RGBA")` + `draw.rectangle(box, fill)`:
PIL rectangles are inclusive of both corners, so every pixel of
`[x0, x1] × [y0, y1]` gets the semi-transparent fill blended over it; every
pixel outside is untouched. -/
def rectangleFillRGBA (img : Img) (b : Box) (fill : Pix) : Img :=
  { width := img.width, height := img.height,
    pix := fun x y =>
      if b.x0 ≤ x ∧ x ≤ b.x1 ∧ b.y0 ≤ y ∧ y ≤ b.y1
      then alphaCompositePix (img.pix x y) fill
      else img.pix x y }

/-- Embedding of `LastPerson07_Compositor.blur_panel`
(engine/compositor.py 105-131): crop the box, Gaussian-blur only that crop
(the blur kernel lives outside the repository and is abstracted by the
`gaussianBlur` argument), paste it back over the same box of the input
canvas, then blend the semi-transparent black rectangle `(0, 0, 0, 90)` over
the box; the mutated input canvas is returned. -/
def blur_panel (gaussianBlur : Img → Img) (img : Img) (b : Box) : Img :=
  rectangleFillRGBA (pasteAt img (gaussianBlur (crop img b)) b) b
    { r := 0, g := 0, b := 0, a := 90 }

/-- C10: `blur_panel` leaves every pixel strictly outside the rectangle
`[x0, x1] × [y0, y1]` unchanged, for any blur function: the Gaussian blur
only ever lands inside the pasted box and the dark overlay covers only the
(corner-inclusive) rectangle, and the returned image is the input canvas
updated in place on that rectangle alone (same dimensions, same buffer
elsewhere). -/
theorem c10_blur_panel_frame (gaussianBlur : Img → Img) (img : Img) (b : Box)
    (x y : Nat) (hout : x < b.x0 ∨ b.x1 < x ∨ y < b.y0 ∨ b.y1 < y) :
    (blur_panel gaussianBlur img b).pix x y = img.pix x y ∧
    (blur_panel gaussianBlur img b).width = img.width ∧
    (blur_panel gaussianBlur img b).height = img.height := by
  refine ⟨?_, rfl, rfl⟩
  have hrect : ¬ (b.x0 ≤ x ∧ x ≤ b.x1 ∧ b.y0 ≤ y ∧ y ≤ b.y1) := by omega
  have hpaste : ¬ (b.x0 ≤ x ∧ x < b.x1 ∧ b.y0 ≤ y ∧ y < b.y1) := by omega
  simp only [blur_panel, rectangleFillRGBA, pasteAt, if_neg hrect, if_neg hpaste]

/-- Witness for C10 at a concrete input: a 10 × 10 coordinate-valued canvas,
the box `(2, 2, 5, 5)`, the identity blur, and the outside pixel `(0, 7)`. -/
theorem c10_blur_panel_frame_witness :
    (blur_panel id
        { width := 10, height := 10,
          pix := fun x y => { r := x, g := y, b := 0, a := 255 } }
        { x0 := 2, y0 := 2, x1 := 5, y1 := 5 }).pix 0 7 =
      ({ width := 10, height := 10,
         pix := fun x y => { r := x, g := y, b := 0, a := 255 } } : Img).pix 0 7 ∧
    (blur_panel id
        { width := 10, height := 10,
          pix := fun x y => { r := x, g := y, b := 0, a := 255 } }
        { x0 := 2, y0 := 2, x1 := 5, y1 := 5 }).width = 10 ∧
    (blur_panel id
        { width := 10, height := 10,
          pix := fun x y => { r := x, g := y, b := 0, a := 255 } }
        { x0 := 2, y0 := 2, x1 := 5, y1 := 5 }).height = 10 :=
  c10_blur_panel_frame id
    { width := 10, height := 10,
      pix := fun x y => { r := x, g := y, b := 0, a := 255 } }
    { x0 := 2, y0 := 2, x1 := 5, y1 := 5 } 0 7 (Or.inl (by decide))

/-- Witness for C9 at a concrete input: a single-space title over the
concrete 1080 × 1920 context. -/
theorem c9_empty_title_renders_watermark_witness :
    (RenderOp.watermarkText (20, 20) WATERMARK_TEXT ∈
      generate_render exCfg (" ".toList)) ∧
    (∀ op ∈ generate_render exCfg (" ".toList),
      ∀ t, op.titleText = some t → t = []) ∧
    (∃ p, RenderOp.glowText p [] ∈ generate_render exCfg (" ".toList)) ∧
    (∃ r, RenderOp.gaussianBlur r ∈ generate_render exCfg (" ".toList)) ∧
    (RenderOp.alphaCompositeGlow ∈ generate_render exCfg (" ".toList)) ∧
    (∃ p, RenderOp.fillText p [] ∈ generate_render exCfg (" ".toList)) ∧
    (RenderOp.autocontrast ∈ generate_render exCfg (" ".toList)) :=
  c9_empty_title_renders_watermark exCfg (" ".toList) (by decide)
